import Mathlib

/-!
Verification of the enrollment workflow of the Quizzie classroom
application (join-code issuance and validation, join requests, and
enrollment resolution), together with the plain-text credential handling
of its authentication routes.  The definitions below are a shallow
embedding of the route handlers in `src/routes/api/classApi.js` and
`src/routes/authRoutes.js`: each MongoDB collection becomes a list of
documents, each handler becomes a pure function from a database state and
request parameters to a response value and a new database state.
Timestamps are naturals (milliseconds), database-generated ids and the
generated join-code string are passed in as parameters.
-/

namespace Quizzie

/-- JavaScript `toUpperCase()`, character by character (structural, so that
proofs can evaluate it on literals). -/
def strUpper (s : String) : String :=
  ⟨s.data.map Char.toUpper⟩

/-- JavaScript `toLowerCase()`, character by character. -/
def strLower (s : String) : String :=
  ⟨s.data.map Char.toLower⟩

/-- JavaScript `trim()`: strip leading and trailing whitespace. -/
def strTrim (s : String) : String :=
  ⟨((s.data.dropWhile Char.isWhitespace).reverse.dropWhile Char.isWhitespace).reverse⟩

/-- Status of a class join request.  Modelled from the spec: the schema of
`classJoinRequestCollection` is not under `src/`; the spec gives the
status enum as pending, approved, rejected, with new requests starting
pending. -/
inductive ReqStatus where
  | pending
  | approved
  | rejected
deriving DecidableEq

/-- A class document (`classCollection`), restricted to the fields the
enrollment workflow reads or writes. -/
structure ClassDoc where
  id : Nat
  teacherId : Nat
  name : String
  subject : String
  isActive : Bool
  studentCount : Nat
deriving DecidableEq

/-- A join-code document (`classJoinCodeCollection`). -/
structure JoinCode where
  id : Nat
  classId : Nat
  teacherId : Nat
  className : String
  classSubject : String
  teacherName : String
  joinCode : String
  expiresAt : Nat
  isActive : Bool
  usageCount : Nat
  maxUsage : Nat
deriving DecidableEq

/-- A class membership document (`classStudentCollection`). -/
structure Enrollment where
  id : Nat
  classId : Nat
  studentId : Nat
  studentName : String
  studentEnrollment : String
  enrolledAt : Nat
  isActive : Bool
deriving DecidableEq

/-- A join-request document (`classJoinRequestCollection`). -/
structure JoinRequest where
  id : Nat
  classId : Nat
  studentId : Nat
  studentName : String
  studentEnrollment : String
  joinCode : String
  teacherId : Nat
  status : ReqStatus
  processedAt : Option Nat
  processedBy : Option Nat
deriving DecidableEq

/-- A student record, restricted to what `POST /join-request` reads from
`studentCollection`. -/
structure StudentRec where
  id : Nat
  enrollment : String
deriving DecidableEq

/-- The database state touched by the enrollment workflow. -/
structure DB where
  classes : List ClassDoc
  joinCodes : List JoinCode
  enrollments : List Enrollment
  joinRequests : List JoinRequest
  students : List StudentRec
deriving DecidableEq

/-- Modelled from the spec: the `isExpired()` schema method of
`classJoinCodeCollection` is not under `src/`.  Per the spec a code
expires by time and validation fails with `Expired` if past expiry, so a
code is expired exactly when the current time is past `expiresAt`. -/
def JoinCode.isExpired (now : Nat) (c : JoinCode) : Bool :=
  decide (c.expiresAt < now)

/-- Modelled from the spec: the `canBeUsed()` schema method of
`classJoinCodeCollection` is not under `src/`.  Per the spec validation
fails with `UsageExceeded` if the usage counter has reached the cap, so a
code can still be used exactly when `usageCount < maxUsage`. -/
def JoinCode.canBeUsed (c : JoinCode) : Bool :=
  decide (c.usageCount < c.maxUsage)

/-- Response of `POST /:classId/generate-join-code`. -/
inductive GenResult where
  | notFound
  | generated (joinCode : String) (expiresAt : Nat)
deriving DecidableEq

/-- `POST /:classId/generate-join-code` (classApi.js).  The schema helper
`generateUniqueCode()` is not under `src/`; modelled from the spec (it
generates a code unique among currently-active codes) as the parameter
`newCode`, and the database-assigned document id as `freshId`. -/
def issueJoinCode (db : DB) (classId teacherId : Nat) (teacherName newCode : String)
    (freshId now : Nat) : GenResult × DB :=
  match db.classes.find? (fun c => c.id == classId && c.teacherId == teacherId && c.isActive) with
  | none => (.notFound, db)
  | some classDoc =>
    let deactivated := db.joinCodes.map (fun jc =>
      if jc.classId == classId && jc.isActive then { jc with isActive := false } else jc)
    let expiresAt := now + 10 * 60 * 1000
    let newJoinCode : JoinCode :=
      { id := freshId, classId := classId, teacherId := teacherId,
        className := classDoc.name, classSubject := classDoc.subject,
        teacherName := teacherName, joinCode := newCode, expiresAt := expiresAt,
        isActive := true, usageCount := 0, maxUsage := 50 }
    (.generated newCode expiresAt, { db with joinCodes := deactivated ++ [newJoinCode] })

/-- Response of `GET /validate-join-code/:code`. -/
inductive ValidateResult where
  | invalidCode
  | expired
  | usageExceeded
  | alreadyEnrolled
  | requestPending
  | valid (classId : Nat) (className classSubject teacherName : String) (expiresAt : Nat)
deriving DecidableEq

/-- `GET /validate-join-code/:code` (classApi.js). -/
def validateJoinCode (db : DB) (code : String) (studentId now : Nat) :
    ValidateResult × DB :=
  let joinCode := strUpper code
  match db.joinCodes.find? (fun jc => jc.joinCode == joinCode && jc.isActive) with
  | none => (.invalidCode, db)
  | some codeDoc =>
    if codeDoc.isExpired now then
      (.expired, { db with joinCodes := db.joinCodes.map (fun jc =>
        if jc.id == codeDoc.id then { jc with isActive := false } else jc) })
    else if ! codeDoc.canBeUsed then
      (.usageExceeded, db)
    else if (db.enrollments.find? (fun e =>
        e.classId == codeDoc.classId && e.studentId == studentId && e.isActive)).isSome then
      (.alreadyEnrolled, db)
    else if (db.joinRequests.find? (fun r =>
        r.classId == codeDoc.classId && r.studentId == studentId &&
          decide (r.status = ReqStatus.pending))).isSome then
      (.requestPending, db)
    else
      (.valid codeDoc.classId codeDoc.className codeDoc.classSubject codeDoc.teacherName
        codeDoc.expiresAt, db)

/-- Response of `POST /join-request`. -/
inductive SubmitResult where
  | missingCode
  | studentNotFound
  | invalidExpiredOrOverused
  | alreadyEnrolled
  | rejoined (className : String)
  | requestPending
  | requested (requestId : Nat) (className : String)
deriving DecidableEq

/-- Shared tail of `POST /join-request` after the existing-request check:
create a new (pending) join request and increment the usage counter of the
matched code.  `reqs` is the request collection after the possible deletion
of a previously rejected request.  Modelled from the spec: the schema
default status of a newly created request (the `create` call passes no
status) is pending. -/
def submitCreate (db : DB) (codeDoc : JoinCode) (reqs : List JoinRequest)
    (studentId : Nat) (studentName studentEnrollment : String)
    (freshReqId : Nat) : SubmitResult × DB :=
  let newReq : JoinRequest :=
    { id := freshReqId, classId := codeDoc.classId, studentId := studentId,
      studentName := studentName, studentEnrollment := studentEnrollment,
      joinCode := codeDoc.joinCode, teacherId := codeDoc.teacherId,
      status := ReqStatus.pending, processedAt := none, processedBy := none }
  let codes1 := db.joinCodes.map (fun jc =>
    if jc.id == codeDoc.id then { jc with usageCount := jc.usageCount + 1 } else jc)
  (.requested freshReqId codeDoc.className,
    { db with joinRequests := reqs ++ [newReq], joinCodes := codes1 })

/-- `POST /join-request` (classApi.js).  Modelled from the spec where the
route calls schema methods that are not under `src/`: `isExpired()` and
`canBeUsed()` as above; the `updateMany` on prior requests during
reactivation writes status approved and a processing timestamp.  `now` is
the current time, `freshReqId` the database-assigned id of a newly created
request. -/
def submitJoinRequest (db : DB) (joinCodeInput : String) (studentId : Nat)
    (studentName : String) (freshReqId now : Nat) : SubmitResult × DB :=
  if joinCodeInput == "" then (.missingCode, db)
  else
    match db.students.find? (fun s => s.id == studentId) with
    | none => (.studentNotFound, db)
    | some student =>
      match db.joinCodes.find? (fun jc =>
          jc.joinCode == strUpper joinCodeInput && jc.isActive) with
      | none => (.invalidExpiredOrOverused, db)
      | some codeDoc =>
        if codeDoc.isExpired now || ! codeDoc.canBeUsed then
          (.invalidExpiredOrOverused, db)
        else
          match db.enrollments.find? (fun e =>
              e.classId == codeDoc.classId && e.studentId == studentId) with
          | some entry =>
            if entry.isActive then (.alreadyEnrolled, db)
            else
              let enrollments1 := db.enrollments.map (fun e =>
                if e.id == entry.id then
                  { e with
                    isActive := true
                    enrolledAt := now
                    studentName := studentName
                    studentEnrollment := student.enrollment }
                else e)
              let requests1 := db.joinRequests.map (fun r =>
                if r.classId == codeDoc.classId && r.studentId == studentId &&
                    (decide (r.status = ReqStatus.pending) ||
                     decide (r.status = ReqStatus.rejected)) then
                  { r with status := ReqStatus.approved, processedAt := some now }
                else r)
              let codes1 := db.joinCodes.map (fun jc =>
                if jc.id == codeDoc.id then { jc with usageCount := jc.usageCount + 1 }
                else jc)
              let totalActiveStudents := enrollments1.countP (fun e =>
                e.classId == codeDoc.classId && e.isActive)
              let classes1 := db.classes.map (fun c =>
                if c.id == codeDoc.classId then { c with studentCount := totalActiveStudents }
                else c)
              (.rejoined codeDoc.className,
                { db with
                  classes := classes1
                  joinCodes := codes1
                  enrollments := enrollments1
                  joinRequests := requests1 })
          | none =>
            match db.joinRequests.find? (fun r =>
                r.classId == codeDoc.classId && r.studentId == studentId) with
            | some existingReq =>
              if decide (existingReq.status = ReqStatus.pending) then
                (.requestPending, db)
              else
                let reqs :=
                  if decide (existingReq.status = ReqStatus.rejected) then
                    db.joinRequests.filter (fun r => ! (r.id == existingReq.id))
                  else db.joinRequests
                submitCreate db codeDoc reqs studentId studentName
                  student.enrollment freshReqId
            | none =>
              submitCreate db codeDoc db.joinRequests studentId studentName
                student.enrollment freshReqId

/-- Response of `POST /:classId/join-requests/:requestId/:action`. -/
inductive ResolveResult where
  | invalidAction
  | classNotFound
  | requestNotFound
  | alreadyEnrolled
  | approvedOk (studentName : String)
  | rejectedOk (studentName : String)
deriving DecidableEq

/-- Modelled from the spec: the `approve(teacherId)` schema method of
`classJoinRequestCollection` is not under `src/`; per the spec approve
marks the request approved and records the processing timestamp and
actor. -/
def approveRequest (reqs : List JoinRequest) (requestId teacherId now : Nat) :
    List JoinRequest :=
  reqs.map (fun r =>
    if r.id == requestId then
      { r with
        status := ReqStatus.approved
        processedAt := some now
        processedBy := some teacherId }
    else r)

/-- Modelled from the spec: the `reject(teacherId, reason)` schema method of
`classJoinRequestCollection` is not under `src/`; per the spec reject marks
the request rejected and records the processing timestamp and actor. -/
def rejectRequest (reqs : List JoinRequest) (requestId teacherId now : Nat) :
    List JoinRequest :=
  reqs.map (fun r =>
    if r.id == requestId then
      { r with
        status := ReqStatus.rejected
        processedAt := some now
        processedBy := some teacherId }
    else r)

/-- Shared tail of the approve branch after the enrollment has been created
or reactivated: approve the request, recount active enrollments, and write
the count into the class document.  `db` already holds the updated
enrollment collection. -/
def resolveApproveFinish (db : DB) (classId : Nat) (joinRequest : JoinRequest)
    (teacherId now : Nat) : ResolveResult × DB :=
  let reqs1 := approveRequest db.joinRequests joinRequest.id teacherId now
  let totalActiveStudents := db.enrollments.countP (fun e =>
    e.classId == classId && e.isActive)
  let classes1 := db.classes.map (fun c =>
    if c.id == classId then { c with studentCount := totalActiveStudents } else c)
  (.approvedOk joinRequest.studentName,
    { db with classes := classes1, joinRequests := reqs1 })

/-- `POST /:classId/join-requests/:requestId/:action` (classApi.js).
`freshEnrollId` is the database-assigned id when a new enrollment document
is created. -/
def resolveJoinRequest (db : DB) (classId requestId : Nat) (action : String)
    (teacherId freshEnrollId now : Nat) : ResolveResult × DB :=
  if ! (action == "approve" || action == "reject") then (.invalidAction, db)
  else
    match db.classes.find? (fun c =>
        c.id == classId && c.teacherId == teacherId && c.isActive) with
    | none => (.classNotFound, db)
    | some _ =>
      match db.joinRequests.find? (fun r =>
          r.id == requestId && r.classId == classId &&
            decide (r.status = ReqStatus.pending)) with
      | none => (.requestNotFound, db)
      | some joinRequest =>
        if action == "approve" then
          match db.enrollments.find? (fun e =>
              e.classId == classId && e.studentId == joinRequest.studentId) with
          | some existingEnrollment =>
            if existingEnrollment.isActive then
              (.alreadyEnrolled,
                { db with joinRequests :=
                    approveRequest db.joinRequests joinRequest.id teacherId now })
            else
              let enrollments1 := db.enrollments.map (fun e =>
                if e.id == existingEnrollment.id then
                  { e with
                    isActive := true
                    enrolledAt := now
                    studentName := joinRequest.studentName
                    studentEnrollment := joinRequest.studentEnrollment }
                else e)
              resolveApproveFinish { db with enrollments := enrollments1 }
                classId joinRequest teacherId now
          | none =>
            let newEnrollment : Enrollment :=
              { id := freshEnrollId, classId := classId,
                studentId := joinRequest.studentId,
                studentName := joinRequest.studentName,
                studentEnrollment := joinRequest.studentEnrollment,
                enrolledAt := now, isActive := true }
            resolveApproveFinish { db with enrollments := db.enrollments ++ [newEnrollment] }
              classId joinRequest teacherId now
        else
          (.rejectedOk joinRequest.studentName,
            { db with joinRequests :=
                rejectRequest db.joinRequests joinRequest.id teacherId now })

/-- A user account document (`studentCollection` / `teacherCollection`),
restricted to the fields signup, login, and password reset read or
write. -/
structure Account where
  id : Nat
  name : String
  email : String
  enrollment : String
  password : String
  resetPasswordToken : Option String
  resetPasswordTokenExpires : Option Nat
deriving DecidableEq

/-- Response of `POST /signup`. -/
inductive SignupResult where
  | duplicate
  | created (account : Account)
deriving DecidableEq

/-- Teacher branch of `POST /signup` (authRoutes.js): rejects an existing
email, otherwise inserts a record whose password field is the submitted
password string. -/
def signupTeacher (teachers : List Account) (name email password : String)
    (freshId : Nat) : SignupResult × List Account :=
  match teachers.find? (fun t => t.email == email) with
  | some _ => (.duplicate, teachers)
  | none =>
    let t : Account :=
      { id := freshId, name := strTrim name, email := strTrim (strLower email),
        enrollment := "", password := password,
        resetPasswordToken := none, resetPasswordTokenExpires := none }
    (.created t, teachers ++ [t])

/-- Student branch of `POST /signup` (authRoutes.js): rejects an existing
enrollment number, otherwise inserts a record whose password field is the
submitted password string. -/
def signupStudent (students : List Account) (name enrollmentNo password : String)
    (freshId : Nat) : SignupResult × List Account :=
  match students.find? (fun s => s.enrollment == strUpper enrollmentNo) with
  | some _ => (.duplicate, students)
  | none =>
    let s : Account :=
      { id := freshId, name := strTrim name, email := "",
        enrollment := strUpper enrollmentNo, password := password,
        resetPasswordToken := none, resetPasswordTokenExpires := none }
    (.created s, students ++ [s])

/-- Response of `POST /login`. -/
inductive LoginResult where
  | noUser
  | wrongPassword
  | loggedIn (userId : Nat)
deriving DecidableEq

/-- Teacher branch of `POST /login` (authRoutes.js): looks the user up by
email and compares the stored password string to the submitted one with
plain string equality. -/
def loginTeacher (teachers : List Account) (email password : String) : LoginResult :=
  match teachers.find? (fun t => t.email == strTrim (strLower email)) with
  | none => .noUser
  | some user =>
    if user.password == password then .loggedIn user.id else .wrongPassword

/-- Student branch of `POST /login` (authRoutes.js): looks the user up by
enrollment number and compares the stored password string to the submitted
one with plain string equality. -/
def loginStudent (students : List Account) (enrollmentNo password : String) : LoginResult :=
  match students.find? (fun s => s.enrollment == strUpper enrollmentNo) with
  | none => .noUser
  | some user =>
    if user.password == password then .loggedIn user.id else .wrongPassword

/-- Lookup of an account by a live password-reset token, as in
`POST /reset-password/:token`: the token matches and its expiry lies
strictly in the future. -/
def findByResetToken (accounts : List Account) (token : String) (now : Nat) :
    Option Account :=
  accounts.find? (fun u =>
    decide (u.resetPasswordToken = some token) &&
      match u.resetPasswordTokenExpires with
      | some e => decide (now < e)
      | none => false)

/-- The password update performed by `POST /reset-password/:token`: the
account with the given id receives the submitted new password unmodified
and its reset token fields are cleared. -/
def applyReset (accounts : List Account) (userId : Nat) (newPassword : String) :
    List Account :=
  accounts.map (fun u =>
    if u.id == userId then
      { u with
        password := newPassword
        resetPasswordToken := none
        resetPasswordTokenExpires := none }
    else u)

/-- Response of `POST /reset-password/:token`. -/
inductive ResetResult where
  | invalidToken
  | mismatch
  | tooShort
  | resetOk
deriving DecidableEq

/-- `POST /reset-password/:token` (authRoutes.js): finds the account by a
live token in the student collection first and the teacher collection
second, validates the confirmation and length, then stores the submitted
new password unmodified. -/
def resetPassword (students teachers : List Account)
    (token newPassword confirmNewPassword : String) (now : Nat) :
    ResetResult × List Account × List Account :=
  match findByResetToken students token now with
  | some user =>
    if ! (newPassword == confirmNewPassword) then (.mismatch, students, teachers)
    else if newPassword.length < 6 then (.tooShort, students, teachers)
    else (.resetOk, applyReset students user.id newPassword, teachers)
  | none =>
    match findByResetToken teachers token now with
    | none => (.invalidToken, students, teachers)
    | some user =>
      if ! (newPassword == confirmNewPassword) then (.mismatch, students, teachers)
      else if newPassword.length < 6 then (.tooShort, students, teachers)
      else (.resetOk, students, applyReset teachers user.id newPassword)

/-- Number of active join codes a class currently has. -/
def activeCodeCount (db : DB) (cid : Nat) : Nat :=
  db.joinCodes.countP (fun jc => jc.classId == cid && jc.isActive)

/-- Number of active enrollments a class currently has. -/
def activeEnrollmentCount (db : DB) (cid : Nat) : Nat :=
  db.enrollments.countP (fun e => e.classId == cid && e.isActive)

/-- Number of enrollment documents for one (class, student) pair. -/
def enrollmentRowCount (db : DB) (cid sid : Nat) : Nat :=
  db.enrollments.countP (fun e => e.classId == cid && e.studentId == sid)

/-- Sample class owned by teacher 1, used to evaluate the theorems on
concrete states. -/
def cls100 : ClassDoc :=
  { id := 100, teacherId := 1, name := "Math", subject := "Algebra",
    isActive := true, studentCount := 0 }

/-- Sample active join code for class 100, issued at time 0 with the fixed
ten-minute lifetime and the default usage cap. -/
def codeABC : JoinCode :=
  { id := 500, classId := 100, teacherId := 1, className := "Math",
    classSubject := "Algebra", teacherName := "T", joinCode := "ABC123",
    expiresAt := 600000, isActive := true, usageCount := 0, maxUsage := 50 }

/-- Sample students. -/
def st10 : StudentRec := { id := 10, enrollment := "EN10" }

def st11 : StudentRec := { id := 11, enrollment := "EN11" }

/-- Sample state: class 100 with one active join code and two registered
students, no enrollments and no join requests. -/
def dbIssued : DB :=
  { classes := [cls100], joinCodes := [codeABC], enrollments := [],
    joinRequests := [], students := [st10, st11] }

/-- Sample join code for class 100 with a usage cap of one, as in the
usage-cap example of the spec (the generate route itself always writes a
cap of 50, so a cap-one code exists only as a direct database state). -/
def codeCap1 : JoinCode :=
  { codeABC with maxUsage := 1 }

/-- Sample state: class 100 with the cap-one join code, two registered
students, no enrollments and no join requests. -/
def dbCap1 : DB :=
  { classes := [cls100], joinCodes := [codeCap1], enrollments := [],
    joinRequests := [], students := [st10, st11] }

/-- Sample pending join request of student 10 for class 100. -/
def reqPending : JoinRequest :=
  { id := 800, classId := 100, studentId := 10, studentName := "S",
    studentEnrollment := "EN10", joinCode := "ABC123", teacherId := 1,
    status := ReqStatus.pending, processedAt := none, processedBy := none }

/-- Sample rejected join request of student 10 for class 100. -/
def reqRejected : JoinRequest :=
  { reqPending with id := 801, status := ReqStatus.rejected }

/-- Sample state where student 10 already has a pending request for
class 100. -/
def dbPending : DB :=
  { dbIssued with joinRequests := [reqPending] }

/-- Sample state where student 10 has a rejected request for class 100. -/
def dbRejected : DB :=
  { dbIssued with joinRequests := [reqRejected] }

/-- Sample inactive enrollment of student 10 in class 100. -/
def enrInactive : Enrollment :=
  { id := 700, classId := 100, studentId := 10, studentName := "S",
    studentEnrollment := "EN10", enrolledAt := 0, isActive := false }

/-- Sample active enrollment of student 10 in class 100. -/
def enrActive : Enrollment :=
  { id := 701, classId := 100, studentId := 10, studentName := "S",
    studentEnrollment := "EN10", enrolledAt := 0, isActive := true }

/-- Sample state where student 10 has an inactive enrollment in class 100
and the class has a live join code. -/
def dbRejoin : DB :=
  { classes := [cls100], joinCodes := [codeABC], enrollments := [enrInactive],
    joinRequests := [], students := [st10, st11] }

/-- Sample state where student 10 is actively enrolled in class 100 and the
class has a live join code. -/
def dbActiveEnr : DB :=
  { classes := [cls100], joinCodes := [codeABC], enrollments := [enrActive],
    joinRequests := [], students := [st10, st11] }


/-- Sample teacher account with a plain-text password. -/
def acctT : Account :=
  { id := 1, name := "T", email := "t@x.com", enrollment := "",
    password := "hunter2", resetPasswordToken := none,
    resetPasswordTokenExpires := none }

/-- Auxiliary: after deactivating every active code of a class, the class
has no active code left in the updated collection. -/
theorem countP_deactivated_zero (l : List JoinCode) (classId : Nat) :
    List.countP (fun jc => jc.classId == classId && jc.isActive)
      (l.map (fun jc => if jc.classId == classId && jc.isActive then
        { jc with isActive := false } else jc)) = 0 := by
  rw [List.countP_map, List.countP_eq_zero]
  intro x _
  by_cases hc : x.classId == classId && x.isActive <;>
    simp [Function.comp, hc]

/-- Auxiliary: deactivating the active codes of one class does not change
the number of active codes of any other class. -/
theorem countP_deactivated_other (l : List JoinCode) (classId cid : Nat)
    (hcid : cid ≠ classId) :
    List.countP (fun jc => jc.classId == cid && jc.isActive)
      (l.map (fun jc => if jc.classId == classId && jc.isActive then
        { jc with isActive := false } else jc)) =
    List.countP (fun jc => jc.classId == cid && jc.isActive) l := by
  rw [List.countP_map]
  apply List.countP_congr
  intro x _
  by_cases hc : x.classId == classId && x.isActive
  · simp only [Bool.and_eq_true, beq_iff_eq] at hc
    simp [Function.comp, hc.1, hc.2, Ne.symm hcid]
  · simp [Function.comp, hc]

/-- Auxiliary: the code collection written by the issue operation holds
exactly one active code for the operated class and the same number of
active codes as before for every other class. -/
theorem issue_counts (l : List JoinCode) (classId : Nat) (newJc : JoinCode)
    (hcid : newJc.classId = classId) (hact : newJc.isActive = true) :
    List.countP (fun jc => jc.classId == classId && jc.isActive)
      ((l.map (fun jc => if jc.classId == classId && jc.isActive then
        { jc with isActive := false } else jc)) ++ [newJc]) = 1 ∧
    ∀ cid, cid ≠ classId →
      List.countP (fun jc => jc.classId == cid && jc.isActive)
        ((l.map (fun jc => if jc.classId == classId && jc.isActive then
          { jc with isActive := false } else jc)) ++ [newJc]) =
      List.countP (fun jc => jc.classId == cid && jc.isActive) l := by
  constructor
  · rw [List.countP_append, countP_deactivated_zero]
    simp [List.countP_cons, hcid, hact]
  · intro cid hcid2
    rw [List.countP_append, countP_deactivated_other l classId cid hcid2]
    simp [List.countP_cons, hcid, Ne.symm hcid2]

/-- C1: whenever `POST /:classId/generate-join-code` succeeds, every
previously active join code of that class has been deactivated before the
new active code was created, so afterwards the class has exactly one
active code; codes of other classes are untouched, hence the invariant
that every class has at most one active code holds after the operation;
on failure the database is unchanged. -/
theorem issueJoinCode_single_active_code (db : DB) (classId teacherId : Nat)
    (teacherName newCode : String) (freshId now : Nat) (res : GenResult) (db' : DB)
    (h : issueJoinCode db classId teacherId teacherName newCode freshId now = (res, db')) :
    (res ≠ GenResult.notFound →
      activeCodeCount db' classId = 1 ∧
      (∀ cid, cid ≠ classId → activeCodeCount db' cid = activeCodeCount db cid) ∧
      ((∀ cid, activeCodeCount db cid ≤ 1) → ∀ cid, activeCodeCount db' cid ≤ 1)) ∧
    (res = GenResult.notFound → db' = db) := by
  unfold issueJoinCode at h
  split at h
  · injection h with h1 h2
    exact ⟨fun hne => (hne h1.symm).elim, fun _ => h2.symm⟩
  · rename_i classDoc hfind
    dsimp only at h
    injection h with h1 h2
    subst h1
    subst h2
    have hc := issue_counts db.joinCodes classId
      ({ id := freshId, classId := classId, teacherId := teacherId,
         className := classDoc.name, classSubject := classDoc.subject,
         teacherName := teacherName, joinCode := newCode,
         expiresAt := now + 10 * 60 * 1000, isActive := true,
         usageCount := 0, maxUsage := 50 } : JoinCode) rfl rfl
    refine ⟨fun _ => ⟨hc.1, hc.2, ?_⟩, fun habs => by cases habs⟩
    intro hbound cid
    by_cases hcc : cid = classId
    · subst hcc
      exact le_of_eq hc.1
    · exact le_trans (le_of_eq (hc.2 cid hcc)) (hbound cid)

/-- Witness for C1 at a concrete state: regenerating the join code of class
100, which already has an active code, leaves exactly one active code. -/
theorem issueJoinCode_single_active_code_witness :
    activeCodeCount (issueJoinCode dbIssued 100 1 "T" "XYZ789" 501 0).2 100 = 1 := by
  have h := issueJoinCode_single_active_code dbIssued 100 1 "T" "XYZ789" 501 0
    (issueJoinCode dbIssued 100 1 "T" "XYZ789" 501 0).1
    (issueJoinCode dbIssued 100 1 "T" "XYZ789" 501 0).2 rfl
  exact (h.1 (by decide)).1

/-- C4: validating a join code that is still recorded as active but whose
expiry timestamp has passed always fails with the expired error, whatever
its usage count, and as a side effect the expired code is marked
inactive. -/
theorem validateJoinCode_expired_spec (db : DB) (code : String) (studentId now : Nat)
    (codeDoc : JoinCode)
    (hfind : db.joinCodes.find?
      (fun jc => jc.joinCode == strUpper code && jc.isActive) = some codeDoc)
    (hexp : codeDoc.expiresAt < now) :
    (validateJoinCode db code studentId now).1 = ValidateResult.expired ∧
    ∀ jc ∈ (validateJoinCode db code studentId now).2.joinCodes,
      jc.id = codeDoc.id → jc.isActive = false := by
  have hmain : validateJoinCode db code studentId now =
      (ValidateResult.expired, { db with joinCodes := db.joinCodes.map (fun jc =>
        if jc.id == codeDoc.id then { jc with isActive := false } else jc) }) := by
    unfold validateJoinCode JoinCode.isExpired
    dsimp only
    rw [hfind]
    simp [hexp]
  refine ⟨by rw [hmain], ?_⟩
  rw [hmain]
  intro jc hjc hid
  obtain ⟨x, _, rfl⟩ := List.mem_map.mp hjc
  by_cases hcx : x.id == codeDoc.id
  · simp [hcx]
  · simp only [hcx, Bool.false_eq_true, not_false_eq_true, ite_false] at hid ⊢
    exact absurd hid (by simpa using hcx)

/-- Witness for C4 matching the example of the spec: the code of class 100
was issued at time 0 with the fixed ten-minute expiry, and validating it
eleven minutes later returns the expired error. -/
theorem validateJoinCode_expired_spec_witness :
    (validateJoinCode dbIssued "ABC123" 10 660000).1 = ValidateResult.expired :=
  (validateJoinCode_expired_spec dbIssued "ABC123" 10 660000 codeABC
    (by decide) (by decide)).1

/-- C6: `GET /validate-join-code/:code` never changes the usage counter of
any join code: for every input and every outcome, every code document
keeps the usage count it had before the call. -/
theorem validateJoinCode_preserves_usageCount (db : DB) (code : String)
    (studentId now : Nat) :
    ((validateJoinCode db code studentId now).2.joinCodes.map
      (fun jc => (jc.id, jc.usageCount))) =
    db.joinCodes.map (fun jc => (jc.id, jc.usageCount)) := by
  unfold validateJoinCode
  dsimp only
  split
  · rfl
  · rename_i codeDoc heq
    split
    · dsimp only
      rw [List.map_map]
      apply List.map_congr_left
      intro x _
      by_cases hid : x.id == codeDoc.id <;> simp [Function.comp, hid]
    · split
      · rfl
      · split
        · rfl
        · split
          · rfl
          · rfl

/-- Auxiliary inversion: if `POST /join-request` answers with the rejoined
message, the call took the reactivation branch: the student exists, an
inactive enrollment for the pair exists, and the new state is exactly the
one written by that branch (usage counter of the matched code incremented,
the existing enrollment row reactivated in place, prior pending or
rejected requests for the pair marked approved). -/
theorem submitJoinRequest_rejoined_inv (db : DB) (joinCodeInput : String)
    (studentId : Nat) (studentName cn : String) (freshReqId now : Nat) (db' : DB)
    (codeDoc : JoinCode)
    (hfind : db.joinCodes.find? (fun jc =>
      jc.joinCode == strUpper joinCodeInput && jc.isActive) = some codeDoc)
    (h : submitJoinRequest db joinCodeInput studentId studentName freshReqId now =
      (SubmitResult.rejoined cn, db')) :
    ∃ student entry,
      db.students.find? (fun s => s.id == studentId) = some student ∧
      db.enrollments.find? (fun e =>
        e.classId == codeDoc.classId && e.studentId == studentId) = some entry ∧
      entry.isActive = false ∧
      db'.joinCodes = db.joinCodes.map (fun jc =>
        if jc.id == codeDoc.id then { jc with usageCount := jc.usageCount + 1 } else jc) ∧
      db'.enrollments = db.enrollments.map (fun e =>
        if e.id == entry.id then
          { e with
            isActive := true
            enrolledAt := now
            studentName := studentName
            studentEnrollment := student.enrollment }
        else e) ∧
      db'.joinRequests = db.joinRequests.map (fun r =>
        if r.classId == codeDoc.classId && r.studentId == studentId &&
            (decide (r.status = ReqStatus.pending) ||
             decide (r.status = ReqStatus.rejected)) then
          { r with status := ReqStatus.approved, processedAt := some now }
        else r) := by
  unfold submitJoinRequest submitCreate at h
  split at h
  · simp at h
  · split at h
    · simp at h
    · rename_i student hstud
      split at h
      · simp at h
      · rename_i x heq
        rw [hfind] at heq
        injection heq with heq1
        subst heq1
        split at h
        · simp at h
        · split at h
          · rename_i entry henr
            split at h
            · simp at h
            · rename_i hact
              dsimp only at h
              injection h with h1 h2
              exact ⟨student, entry, hstud, henr, by simpa using hact,
                by rw [← h2], by rw [← h2], by rw [← h2]⟩
          · split at h
            · split at h
              · simp at h
              · simp at h
            · simp at h

/-- C10: on the reactivation path of `POST /join-request` the usage counter
of the matched join code is incremented exactly once — the matched code
gains one use and every other code is unchanged — the same as on the
new-request path, even though the request-approval workflow is
bypassed. -/
theorem submitJoinRequest_reactivation_increments_once (db : DB)
    (joinCodeInput : String) (studentId : Nat) (studentName cn : String)
    (freshReqId now : Nat) (db' : DB) (codeDoc : JoinCode)
    (hfind : db.joinCodes.find? (fun jc =>
      jc.joinCode == strUpper joinCodeInput && jc.isActive) = some codeDoc)
    (h : submitJoinRequest db joinCodeInput studentId studentName freshReqId now =
      (SubmitResult.rejoined cn, db')) :
    db'.joinCodes = db.joinCodes.map (fun jc =>
      if jc.id == codeDoc.id then { jc with usageCount := jc.usageCount + 1 } else jc) := by
  obtain ⟨_, _, _, _, _, hcodes, _, _⟩ :=
    submitJoinRequest_rejoined_inv db joinCodeInput studentId studentName cn
      freshReqId now db' codeDoc hfind h
  exact hcodes

/-- Witness for C10: student 10 rejoins class 100 through its code, and the
code collection afterwards is the old one with exactly one more use on the
matched code. -/
theorem submitJoinRequest_reactivation_increments_once_witness :
    (submitJoinRequest dbRejoin "ABC123" 10 "S" 900 1000).2.joinCodes =
      dbRejoin.joinCodes.map (fun jc =>
        if jc.id == codeABC.id then { jc with usageCount := jc.usageCount + 1 } else jc) :=
  submitJoinRequest_reactivation_increments_once dbRejoin "ABC123" 10 "S" "Math"
    900 1000 (submitJoinRequest dbRejoin "ABC123" 10 "S" 900 1000).2 codeABC
    (by decide) (by decide)

/-- C7: when a student with an existing inactive enrollment in the class of
a valid join code submits it, the enrollment row is reactivated in place:
no enrollment row is created, the (class, student) pair keeps the same
number of rows, one of them now active, and every join request of the pair
ends approved; when the existing enrollment is active the call fails with
the already-enrolled error and the database is unchanged. -/
theorem submitJoinRequest_reactivation_spec (db : DB) (joinCodeInput : String)
    (studentId : Nat) (studentName : String) (freshReqId now : Nat) (codeDoc : JoinCode)
    (hfind : db.joinCodes.find? (fun jc =>
      jc.joinCode == strUpper joinCodeInput && jc.isActive) = some codeDoc) :
    (∀ cn db', submitJoinRequest db joinCodeInput studentId studentName freshReqId now =
        (SubmitResult.rejoined cn, db') →
      db'.enrollments.length = db.enrollments.length ∧
      enrollmentRowCount db' codeDoc.classId studentId =
        enrollmentRowCount db codeDoc.classId studentId ∧
      (∃ e, e ∈ db'.enrollments ∧ e.classId = codeDoc.classId ∧
        e.studentId = studentId ∧ e.isActive = true) ∧
      (∀ r, r ∈ db'.joinRequests → r.classId = codeDoc.classId →
        r.studentId = studentId → r.status = ReqStatus.approved)) ∧
    (∀ student entry, (joinCodeInput == "") = false →
      db.students.find? (fun s => s.id == studentId) = some student →
      (codeDoc.isExpired now || ! codeDoc.canBeUsed) = false →
      db.enrollments.find? (fun e =>
        e.classId == codeDoc.classId && e.studentId == studentId) = some entry →
      entry.isActive = true →
      submitJoinRequest db joinCodeInput studentId studentName freshReqId now =
        (SubmitResult.alreadyEnrolled, db)) := by
  constructor
  · intro cn db' h
    obtain ⟨student, entry, hstud, henr, hinact, hcodes, henrs, hreqs⟩ :=
      submitJoinRequest_rejoined_inv db joinCodeInput studentId studentName cn
        freshReqId now db' codeDoc hfind h
    have hpair := List.find?_some henr
    simp only [Bool.and_eq_true, beq_iff_eq] at hpair
    refine ⟨?_, ?_, ?_, ?_⟩
    · rw [henrs, List.length_map]
    · unfold enrollmentRowCount
      rw [henrs, List.countP_map]
      apply List.countP_congr
      intro x _
      by_cases hid : x.id == entry.id <;> simp [Function.comp, hid]
    · have hmem := List.mem_of_find?_eq_some henr
      rw [henrs]
      refine ⟨_, List.mem_map_of_mem _ hmem, ?_, ?_, ?_⟩
      · simp [hpair.1]
      · simp [hpair.2]
      · simp
    · intro r hr hc hs
      rw [hreqs] at hr
      obtain ⟨x, hx, rfl⟩ := List.mem_map.mp hr
      by_cases hcond : (x.classId == codeDoc.classId && x.studentId == studentId &&
          (decide (x.status = ReqStatus.pending) || decide (x.status = ReqStatus.rejected)))
      · simp [hcond]
      · simp only [hcond, Bool.false_eq_true, not_false_eq_true, ite_false] at hc hs ⊢
        simp only [hc, hs, beq_self_eq_true, Bool.true_and, Bool.or_eq_true,
          decide_eq_true_eq] at hcond
        cases hstatus : x.status
        · exact absurd (Or.inl hstatus) hcond
        · rfl
        · exact absurd (Or.inr hstatus) hcond
  · intro student entry h0 hstud hval henr hact
    unfold submitJoinRequest
    rw [hstud, hfind]
    dsimp only
    rw [henr]
    simp [h0, hval, hact]

/-- Witness for C7: rejoining through the inactive enrollment keeps the
number of enrollment rows, and the same call against an active enrollment
fails with the already-enrolled error leaving the state unchanged. -/
theorem submitJoinRequest_reactivation_spec_witness :
    (submitJoinRequest dbRejoin "ABC123" 10 "S" 900 1000).2.enrollments.length =
      dbRejoin.enrollments.length ∧
    submitJoinRequest dbActiveEnr "ABC123" 10 "S" 900 1000 =
      (SubmitResult.alreadyEnrolled, dbActiveEnr) := by
  constructor
  · exact ((submitJoinRequest_reactivation_spec dbRejoin "ABC123" 10 "S" 900 1000 codeABC
      (by decide)).1 "Math" (submitJoinRequest dbRejoin "ABC123" 10 "S" 900 1000).2
      (by decide)).1
  · exact (submitJoinRequest_reactivation_spec dbActiveEnr "ABC123" 10 "S" 900 1000 codeABC
      (by decide)).2 st10 enrActive (by decide) (by decide) (by decide) (by decide)
      (by decide)

/-- Counterexample to C3 as stated: a `POST /join-request` call by a
student who is actively enrolled does not take the reactivation path (it
fails with the already-enrolled error), yet the usage counter of the code
is not incremented — the database is returned unchanged, with the counter
still at zero. -/
theorem submitJoinRequest_nonreactivation_increment_cex :
    submitJoinRequest dbActiveEnr "ABC123" 10 "S" 900 1000 =
      (SubmitResult.alreadyEnrolled, dbActiveEnr) ∧
    codeABC.usageCount = 0 := by
  constructor
  · decide
  · decide

/-- C3 (amended): every `POST /join-request` call that succeeds without
taking the reactivation path — that is, answers with the request-created
message — increments the usage counter of the matched join code exactly
once: that code gains one use and every other code is unchanged. -/
theorem submitJoinRequest_new_request_increments_once (db : DB)
    (joinCodeInput : String) (studentId rid : Nat) (studentName cn : String)
    (freshReqId now : Nat) (db' : DB) (codeDoc : JoinCode)
    (hfind : db.joinCodes.find? (fun jc =>
      jc.joinCode == strUpper joinCodeInput && jc.isActive) = some codeDoc)
    (h : submitJoinRequest db joinCodeInput studentId studentName freshReqId now =
      (SubmitResult.requested rid cn, db')) :
    db'.joinCodes = db.joinCodes.map (fun jc =>
      if jc.id == codeDoc.id then { jc with usageCount := jc.usageCount + 1 } else jc) := by
  unfold submitJoinRequest submitCreate at h
  split at h
  · simp at h
  · split at h
    · simp at h
    · split at h
      · simp at h
      · rename_i x heq
        rw [hfind] at heq
        injection heq with heq1
        subst heq1
        split at h
        · simp at h
        · split at h
          · split at h
            · simp at h
            · dsimp only at h
              simp at h
          · split at h
            · split at h
              · simp at h
              · dsimp only at h
                injection h with h1 h2
                rw [← h2]
            · dsimp only at h
              injection h with h1 h2
              rw [← h2]

/-- Witness for the amended C3: student 11 submits a valid code with no
prior enrollment or request, and the code collection afterwards is the old
one with exactly one more use on the matched code. -/
theorem submitJoinRequest_new_request_increments_once_witness :
    (submitJoinRequest dbIssued "ABC123" 11 "S2" 900 1000).2.joinCodes =
      dbIssued.joinCodes.map (fun jc =>
        if jc.id == codeABC.id then { jc with usageCount := jc.usageCount + 1 } else jc) :=
  submitJoinRequest_new_request_increments_once dbIssued "ABC123" 11 900 "S2" "Math"
    900 1000 (submitJoinRequest dbIssued "ABC123" 11 "S2" 900 1000).2 codeABC
    (by decide) (by decide)

/-- C5: a join code whose usage counter has reached its cap is rejected
even when unexpired and still active: validation answers with the
usage-limit error, and a submitted join request fails with the combined
invalid/expired/overused rejection of the code check (whose only failing
conjunct, with the code active and unexpired, is the usage cap); both
calls leave the database unchanged. -/
theorem joinCode_at_cap_rejected (db : DB) (code : String)
    (studentId : Nat) (studentName : String) (freshReqId now : Nat)
    (codeDoc : JoinCode)
    (hfind : db.joinCodes.find? (fun jc =>
      jc.joinCode == strUpper code && jc.isActive) = some codeDoc)
    (hcap : codeDoc.maxUsage ≤ codeDoc.usageCount)
    (hnexp : ¬ codeDoc.expiresAt < now) :
    validateJoinCode db code studentId now = (ValidateResult.usageExceeded, db) ∧
    ((code == "") = false →
      ∀ student, db.students.find? (fun s => s.id == studentId) = some student →
      submitJoinRequest db code studentId studentName freshReqId now =
        (SubmitResult.invalidExpiredOrOverused, db)) := by
  constructor
  · unfold validateJoinCode JoinCode.isExpired JoinCode.canBeUsed
    dsimp only
    rw [hfind]
    simp [hnexp, not_lt.mpr hcap]
  · intro h0 student hstud
    unfold submitJoinRequest JoinCode.isExpired JoinCode.canBeUsed
    rw [hstud, hfind]
    dsimp only
    simp [h0, hnexp, not_lt.mpr hcap]

/-- Witness for C5 matching the example of the spec: with the cap-one code
ABC123, the first join request of student 10 succeeds and creates a
pending request; a second join request by student 11 with the same code is
rejected by the usage cap, as is validation. -/
theorem joinCode_at_cap_rejected_witness :
    (submitJoinRequest dbCap1 "ABC123" 10 "S" 900 1000).1 =
      SubmitResult.requested 900 "Math" ∧
    submitJoinRequest (submitJoinRequest dbCap1 "ABC123" 10 "S" 900 1000).2
      "ABC123" 11 "S2" 901 2000 =
      (SubmitResult.invalidExpiredOrOverused,
        (submitJoinRequest dbCap1 "ABC123" 10 "S" 900 1000).2) ∧
    validateJoinCode (submitJoinRequest dbCap1 "ABC123" 10 "S" 900 1000).2
      "ABC123" 11 2000 =
      (ValidateResult.usageExceeded,
        (submitJoinRequest dbCap1 "ABC123" 10 "S" 900 1000).2) := by
  refine ⟨by decide, ?_, ?_⟩
  · exact (joinCode_at_cap_rejected (submitJoinRequest dbCap1 "ABC123" 10 "S" 900 1000).2
      "ABC123" 11 "S2" 901 2000 { codeCap1 with usageCount := 1 } (by decide) (by decide)
      (by decide)).2 (by decide) st11 (by decide)
  · exact (joinCode_at_cap_rejected (submitJoinRequest dbCap1 "ABC123" 10 "S" 900 1000).2
      "ABC123" 11 "S2" 901 2000 { codeCap1 with usageCount := 1 } (by decide) (by decide)
      (by decide)).1

/-- C8: for a student with no enrollment row in the class of a valid code,
submitting while an earlier request of the pair is still pending fails
with the request-pending error and changes nothing; when the earlier
request found for the pair is rejected, it is deleted before the new
pending request is created, so after the retry the rejected request is
gone, a new pending request for the pair exists, and — when the deleted
one was the only request of the pair — no rejected request of the pair
remains. -/
theorem submitJoinRequest_pending_and_rejected_spec (db : DB) (code : String)
    (studentId : Nat) (studentName : String) (freshReqId now : Nat)
    (codeDoc : JoinCode) (req : JoinRequest) (student : StudentRec)
    (h0 : (code == "") = false)
    (hstud : db.students.find? (fun s => s.id == studentId) = some student)
    (hfind : db.joinCodes.find? (fun jc =>
      jc.joinCode == strUpper code && jc.isActive) = some codeDoc)
    (hval : (codeDoc.isExpired now || ! codeDoc.canBeUsed) = false)
    (henr : db.enrollments.find? (fun e =>
      e.classId == codeDoc.classId && e.studentId == studentId) = none)
    (hreq : db.joinRequests.find? (fun r =>
      r.classId == codeDoc.classId && r.studentId == studentId) = some req) :
    (req.status = ReqStatus.pending →
      submitJoinRequest db code studentId studentName freshReqId now =
        (SubmitResult.requestPending, db)) ∧
    (req.status = ReqStatus.rejected →
      ∃ db', submitJoinRequest db code studentId studentName freshReqId now =
          (SubmitResult.requested freshReqId codeDoc.className, db') ∧
        req ∉ db'.joinRequests ∧
        (∃ r, r ∈ db'.joinRequests ∧ r.classId = codeDoc.classId ∧
          r.studentId = studentId ∧ r.status = ReqStatus.pending) ∧
        ((∀ r, r ∈ db.joinRequests → r.classId = codeDoc.classId →
            r.studentId = studentId → r = req) →
          ∀ r, r ∈ db'.joinRequests → r.classId = codeDoc.classId →
            r.studentId = studentId → r.status = ReqStatus.pending)) := by
  constructor
  · intro hpend
    unfold submitJoinRequest
    rw [hstud, hfind]
    dsimp only
    rw [henr]
    dsimp only
    rw [hreq]
    simp [h0, hval, hpend]
  · intro hrej
    refine ⟨{ db with
      joinRequests := (db.joinRequests.filter (fun r => ! (r.id == req.id))) ++
        [{ id := freshReqId, classId := codeDoc.classId, studentId := studentId,
           studentName := studentName, studentEnrollment := student.enrollment,
           joinCode := codeDoc.joinCode, teacherId := codeDoc.teacherId,
           status := ReqStatus.pending, processedAt := none, processedBy := none }]
      joinCodes := db.joinCodes.map (fun jc =>
        if jc.id == codeDoc.id then { jc with usageCount := jc.usageCount + 1 }
        else jc) }, ?_, ?_, ?_, ?_⟩
    · unfold submitJoinRequest submitCreate
      rw [hstud, hfind]
      dsimp only
      rw [henr]
      dsimp only
      rw [hreq]
      simp [h0, hval, hrej]
    · intro hmem
      dsimp only at hmem
      rcases List.mem_append.mp hmem with hl | hr
      · have := (List.mem_filter.mp hl).2
        simp at this
      · have heqr := List.mem_singleton.mp hr
        have := congrArg JoinRequest.status heqr
        rw [hrej] at this
        cases this
    · refine ⟨_, List.mem_append_right _ (List.mem_singleton.mpr rfl), rfl, rfl, rfl⟩
    · intro huniq r hr hc hs
      dsimp only at hr
      rcases List.mem_append.mp hr with hl | hrr
      · have hin := List.mem_filter.mp hl
        have hid : (! (r.id == req.id)) = true := hin.2
        have := huniq r hin.1 hc hs
        subst this
        simp at hid
      · have := List.mem_singleton.mp hrr
        subst this
        rfl

/-- Witness for C8: with a pending request already on file the retry is
refused and changes nothing; with a rejected request on file the retry
succeeds and the rejected request is no longer present afterwards. -/
theorem submitJoinRequest_pending_and_rejected_spec_witness :
    submitJoinRequest dbPending "ABC123" 10 "S" 900 1000 =
      (SubmitResult.requestPending, dbPending) ∧
    reqRejected ∉ (submitJoinRequest dbRejected "ABC123" 10 "S" 900 1000).2.joinRequests := by
  constructor
  · exact (submitJoinRequest_pending_and_rejected_spec dbPending "ABC123" 10 "S" 900 1000
      codeABC reqPending st10 (by decide) (by decide) (by decide) (by decide) (by decide)
      (by decide)).1 (by decide)
  · obtain ⟨db', heq, hnot, _, _⟩ :=
      (submitJoinRequest_pending_and_rejected_spec dbRejected "ABC123" 10 "S" 900 1000
        codeABC reqRejected st10 (by decide) (by decide) (by decide) (by decide)
        (by decide) (by decide)).2 (by decide)
    rw [heq]
    exact hnot

/-- Auxiliary: the shared approve tail marks the request approved, keeps
the enrollment collection (so an active enrollment given beforehand is
still present), and writes into the class document exactly the number of
active enrollments of the resulting state. -/
theorem resolveApproveFinish_spec (db : DB) (classId : Nat) (jr : JoinRequest)
    (teacherId now : Nat) (s : String) (db' : DB)
    (h : resolveApproveFinish db classId jr teacherId now =
      (ResolveResult.approvedOk s, db'))
    (hex : ∃ e, e ∈ db.enrollments ∧ e.classId = classId ∧
      e.studentId = jr.studentId ∧ e.isActive = true) :
    (∀ r, r ∈ db'.joinRequests → r.id = jr.id → r.status = ReqStatus.approved) ∧
    (∃ e, e ∈ db'.enrollments ∧ e.classId = classId ∧
      e.studentId = jr.studentId ∧ e.isActive = true) ∧
    (∀ c, c ∈ db'.classes → c.id = classId →
      c.studentCount = activeEnrollmentCount db' classId) := by
  unfold resolveApproveFinish approveRequest at h
  dsimp only at h
  injection h with h1 h2
  subst h2
  refine ⟨?_, hex, ?_⟩
  · intro r hr hid
    obtain ⟨x, hx, rfl⟩ := List.mem_map.mp hr
    by_cases hc : x.id == jr.id
    · simp [hc]
    · simp only [hc, Bool.false_eq_true, not_false_eq_true, ite_false] at hid ⊢
      exact absurd hid (by simpa using hc)
  · intro c hc hcid
    obtain ⟨x, hx, rfl⟩ := List.mem_map.mp hc
    by_cases hxc : x.id == classId
    · simp [hxc, activeEnrollmentCount]
    · simp only [hxc, Bool.false_eq_true, not_false_eq_true, ite_false] at hcid ⊢
      exact absurd hcid (by simpa using hxc)

/-- C2: when approving a pending join request succeeds, the request ends
approved, the student has an active enrollment in the class, and the class
document records exactly the number of active enrollments of the class;
when no pending request with that id exists for the class — it is missing
or already resolved — the route fails with a not-found response and the
database is unchanged. -/
theorem resolveJoinRequest_approve_spec (db : DB)
    (classId requestId teacherId freshEnrollId now : Nat) :
    ((db.joinRequests.find? (fun r => r.id == requestId && r.classId == classId &&
        decide (r.status = ReqStatus.pending)) = none) →
      ∀ res db', resolveJoinRequest db classId requestId "approve" teacherId
          freshEnrollId now = (res, db') →
        (res = ResolveResult.classNotFound ∨ res = ResolveResult.requestNotFound) ∧
        db' = db) ∧
    (∀ jr s db', db.joinRequests.find? (fun r => r.id == requestId &&
        r.classId == classId && decide (r.status = ReqStatus.pending)) = some jr →
      resolveJoinRequest db classId requestId "approve" teacherId freshEnrollId now =
        (ResolveResult.approvedOk s, db') →
      (∀ r, r ∈ db'.joinRequests → r.id = jr.id → r.status = ReqStatus.approved) ∧
      (∃ e, e ∈ db'.enrollments ∧ e.classId = classId ∧
        e.studentId = jr.studentId ∧ e.isActive = true) ∧
      (∀ c, c ∈ db'.classes → c.id = classId →
        c.studentCount = activeEnrollmentCount db' classId)) := by
  have hact : (! ("approve" == "approve" || "approve" == "reject")) = false := by decide
  constructor
  · intro hnone res db' h
    unfold resolveJoinRequest at h
    rw [hact] at h
    simp only [Bool.false_eq_true, if_false] at h
    split at h
    · injection h with h1 h2
      exact ⟨Or.inl h1.symm, h2.symm⟩
    · rw [hnone] at h
      dsimp only at h
      injection h with h1 h2
      exact ⟨Or.inr h1.symm, h2.symm⟩
  · intro jr s db' hfindreq h
    unfold resolveJoinRequest at h
    rw [hact] at h
    simp only [Bool.false_eq_true, if_false] at h
    split at h
    · simp at h
    · rw [hfindreq] at h
      dsimp only at h
      rw [(by decide : ("approve" == "approve") = true)] at h
      simp only [if_true] at h
      split at h
      · rename_i existing henr
        split at h
        · simp at h
        · rename_i hinact
          apply resolveApproveFinish_spec _ _ _ _ _ _ _ h
          have hpred := List.find?_some henr
          have hmem := List.mem_of_find?_eq_some henr
          simp only [Bool.and_eq_true, beq_iff_eq] at hpred
          refine ⟨_, List.mem_map_of_mem _ hmem, ?_, ?_, ?_⟩
          · simp [hpred.1]
          · simp [hpred.2]
          · simp
      · apply resolveApproveFinish_spec _ _ _ _ _ _ _ h
        refine ⟨_, List.mem_append_right _ (List.mem_singleton.mpr rfl), rfl, rfl, rfl⟩

/-- Witness for C2: approving the pending request of student 10 in class
100 succeeds, and afterwards the count stored on the class document equals
the number of active enrollments; resolving a nonexistent request id fails
with the not-found response leaving the state unchanged. -/
theorem resolveJoinRequest_approve_spec_witness :
    (∀ c, c ∈ (resolveJoinRequest dbPending 100 800 "approve" 1 950 3000).2.classes →
      c.id = 100 →
      c.studentCount =
        activeEnrollmentCount (resolveJoinRequest dbPending 100 800 "approve" 1 950 3000).2
          100) ∧
    resolveJoinRequest dbPending 100 999 "approve" 1 950 3000 =
      (ResolveResult.requestNotFound, dbPending) := by
  constructor
  · exact ((resolveJoinRequest_approve_spec dbPending 100 800 1 950 3000).2 reqPending "S"
      (resolveJoinRequest dbPending 100 800 "approve" 1 950 3000).2 (by decide)
      (by decide)).2.2
  · have h := (resolveJoinRequest_approve_spec dbPending 100 999 1 950 3000).1 (by decide)
      (resolveJoinRequest dbPending 100 999 "approve" 1 950 3000).1
      (resolveJoinRequest dbPending 100 999 "approve" 1 950 3000).2 rfl
    have hres : (resolveJoinRequest dbPending 100 999 "approve" 1 950 3000).1 =
        ResolveResult.requestNotFound := by decide
    calc resolveJoinRequest dbPending 100 999 "approve" 1 950 3000
        = ((resolveJoinRequest dbPending 100 999 "approve" 1 950 3000).1,
           (resolveJoinRequest dbPending 100 999 "approve" 1 950 3000).2) := rfl
      _ = (ResolveResult.requestNotFound, dbPending) := by rw [hres, h.2]

/-- Auxiliary: every account in the collection written by the reset update
is either an unchanged original account or carries exactly the submitted
new password. -/
theorem applyReset_mem (accounts : List Account) (uid : Nat) (newPassword : String) :
    ∀ u, u ∈ applyReset accounts uid newPassword →
      u ∈ accounts ∨ u.password = newPassword := by
  intro u hu
  unfold applyReset at hu
  obtain ⟨x, hx, rfl⟩ := List.mem_map.mp hu
  by_cases hid : x.id == uid
  · right
    simp [hid]
  · left
    simpa [hid] using hx

/-- Auxiliary: the account found by the reset lookup is updated to carry
exactly the submitted new password. -/
theorem applyReset_target (accounts : List Account) (user : Account)
    (newPassword : String) (hmem : user ∈ accounts) :
    ∃ u, u ∈ applyReset accounts user.id newPassword ∧ u.password = newPassword := by
  refine ⟨_, List.mem_map_of_mem _ hmem, ?_⟩
  simp

/-- C9: credentials are handled in plain text end to end: the teacher and
student signup branches persist the submitted password string unmodified;
login for a found account succeeds exactly when the stored password string
equals the submitted one; and a successful password reset stores the
submitted new password unmodified, every touched account carrying exactly
that string. -/
theorem plaintext_password_spec :
    (∀ teachers name email password freshId acc ts',
      signupTeacher teachers name email password freshId =
        (SignupResult.created acc, ts') →
      acc.password = password ∧ acc ∈ ts') ∧
    (∀ students name enrollmentNo password freshId acc ss',
      signupStudent students name enrollmentNo password freshId =
        (SignupResult.created acc, ss') →
      acc.password = password ∧ acc ∈ ss') ∧
    (∀ teachers email password user,
      teachers.find? (fun t => t.email == strTrim (strLower email)) = some user →
      (loginTeacher teachers email password = LoginResult.loggedIn user.id ↔
        user.password = password)) ∧
    (∀ students enrollmentNo password user,
      students.find? (fun s => s.enrollment == strUpper enrollmentNo) = some user →
      (loginStudent students enrollmentNo password = LoginResult.loggedIn user.id ↔
        user.password = password)) ∧
    (∀ students teachers token newPassword confirm now ss' ts',
      resetPassword students teachers token newPassword confirm now =
        (ResetResult.resetOk, ss', ts') →
      (∃ u, u ∈ ss' ++ ts' ∧ u.password = newPassword) ∧
      (∀ u, u ∈ ss' ++ ts' → u ∈ students ++ teachers ∨ u.password = newPassword)) := by
  refine ⟨?_, ?_, ?_, ?_, ?_⟩
  · intro teachers name email password freshId acc ts' h
    unfold signupTeacher at h
    split at h
    · simp at h
    · dsimp only at h
      injection h with h1 h2
      injection h1 with h1
      subst h1
      subst h2
      exact ⟨rfl, List.mem_append_right _ (List.mem_singleton.mpr rfl)⟩
  · intro students name enrollmentNo password freshId acc ss' h
    unfold signupStudent at h
    split at h
    · simp at h
    · dsimp only at h
      injection h with h1 h2
      injection h1 with h1
      subst h1
      subst h2
      exact ⟨rfl, List.mem_append_right _ (List.mem_singleton.mpr rfl)⟩
  · intro teachers email password user hfind
    unfold loginTeacher
    rw [hfind]
    dsimp only
    by_cases hpw : user.password = password
    · simp [hpw]
    · simp [hpw]
  · intro students enrollmentNo password user hfind
    unfold loginStudent
    rw [hfind]
    dsimp only
    by_cases hpw : user.password = password
    · simp [hpw]
    · simp [hpw]
  · intro students teachers token newPassword confirm now ss' ts' h
    unfold resetPassword at h
    split at h
    · rename_i user hfound
      split at h
      · simp at h
      · split at h
        · simp at h
        · injection h with h1 hrest
          injection hrest with h2 h3
          subst h2
          subst h3
          have hmem := List.mem_of_find?_eq_some hfound
          constructor
          · obtain ⟨u, hu, hpw⟩ := applyReset_target students user newPassword hmem
            exact ⟨u, List.mem_append_left _ hu, hpw⟩
          · intro u hu
            rcases List.mem_append.mp hu with hl | hr
            · rcases applyReset_mem students user.id newPassword u hl with hin | hpw
              · exact Or.inl (List.mem_append_left _ hin)
              · exact Or.inr hpw
            · exact Or.inl (List.mem_append_right _ hr)
    · split at h
      · simp at h
      · rename_i user hfound
        split at h
        · simp at h
        · split at h
          · simp at h
          · injection h with h1 hrest
            injection hrest with h2 h3
            subst h2
            subst h3
            have hmem := List.mem_of_find?_eq_some hfound
            constructor
            · obtain ⟨u, hu, hpw⟩ := applyReset_target teachers user newPassword hmem
              exact ⟨u, List.mem_append_right _ hu, hpw⟩
            · intro u hu
              rcases List.mem_append.mp hu with hl | hr
              · exact Or.inl (List.mem_append_left _ hl)
              · rcases applyReset_mem teachers user.id newPassword u hr with hin | hpw
                · exact Or.inl (List.mem_append_right _ hin)
                · exact Or.inr hpw

/-- Witness for C9: the sample teacher account stored with the plain
password logs in with exactly that string. -/
theorem plaintext_password_spec_witness :
    loginTeacher [acctT] "t@x.com" "hunter2" = LoginResult.loggedIn 1 :=
  ((plaintext_password_spec).2.2.1 [acctT] "t@x.com" "hunter2" acctT
    (by decide)).mpr rfl

end Quizzie
